import Mathlib

/-!
Verification of the Bookstore-API express routers.

This file gives a shallow embedding of the two routers of the repository:

* `src/routes/closed/closed_message.ts` (namespace `Closed`): offset and
  cursor pagination over the `Demo` table, plus a message POST/DELETE.
* `src/routes/open/message.ts` (namespace `Open`): message CRUD and the
  book lookup/filter endpoints.

Database tables are lists of records; `ORDER BY DemoID` is modelled by a
sort on the surrogate key; each handler is a pure function from the
request data (and the table, or a possibly-failing database result) to
the HTTP response it sends.  A handler that can throw (an uncaught
rejected query, or the `reduce` of an empty array in the cursor route)
returns an `Except` whose error side is the thrown value.
-/

namespace Bookstore

/-- A database provider error, carrying the optional human-readable
`detail` string that the POST handlers sniff for unique-key violations. -/
structure DbError where
  detail : Option String
  deriving Repr, DecidableEq

/-- A row of the `Demo` table: surrogate key `DemoID` (lower-cased to
`demoid` by the driver) plus the three public columns. -/
structure DemoRow where
  demoid : Nat
  name : String
  message : String
  priority : Nat
  deriving Repr, DecidableEq

/-- A row of the `BOOKS` table (the five columns the routes select). -/
structure Book where
  isbn13 : String
  authors : String
  publication_year : Int
  title : String
  rating_avg : ℚ
  deriving Repr, DecidableEq

namespace Closed

/-- The three public columns a `Demo` query projects (no surrogate key):
the shape of the rows of the `/offset` query, and of a `/cursor` row after
`({ demoid, ...rest }) => rest`. -/
structure MsgRow where
  name : String
  message : String
  priority : Nat
  deriving Repr, DecidableEq

/-- Projection of a `Demo` row to its three public columns. -/
def strip (r : DemoRow) : MsgRow :=
  { name := r.name, message := r.message, priority := r.priority }

/-- The template string of `format` in `closed_message.ts`. -/
def formattedLine (r : MsgRow) : String :=
  "\x7b" ++ toString r.priority ++ "\x7d - [" ++ r.name ++ "] says: " ++ r.message

/-- Result of `format` in `closed_message.ts`: the row spread together with
the added `formatted` template string. -/
structure FormattedEntry where
  name : String
  message : String
  priority : Nat
  formatted : String
  deriving Repr, DecidableEq

/-- `format = (resultRow) => ({ ...resultRow, formatted: ... })`. -/
def format (r : MsgRow) : FormattedEntry :=
  { name := r.name, message := r.message, priority := r.priority,
    formatted := formattedLine r }

/-- `ORDER BY DemoID` over the `Demo` table. -/
def orderByDemoID (t : List DemoRow) : List DemoRow :=
  List.insertionSort (fun a b => a.demoid ≤ b.demoid) t

/-- The `limit` of both pagination routes:
`isNumberProvided(request.query.limit) && +request.query.limit > 0 ? +request.query.limit : 10`.
A query value is `some n` when provided and numeric with value `n`,
`none` when absent or not a number. -/
def parseLimit (q : Option Int) : Int :=
  match q with
  | some n => if 0 < n then n else 10
  | none => 10

/-- The `offset` of the `/offset` route:
`isNumberProvided(request.query.offset) && +request.query.offset >= 0 ? +request.query.offset : 0`. -/
def parseOffset (q : Option Int) : Int :=
  match q with
  | some n => if 0 ≤ n then n else 0
  | none => 0

/-- The `cursor` of the `/cursor` route:
`isNumberProvided(request.query.cursor) && +request.query.cursor >= 0 ? +request.query.cursor : 0`. -/
def parseCursor (q : Option Int) : Int :=
  match q with
  | some n => if 0 ≤ n then n else 0
  | none => 0

/-- Rows of `SELECT name, message, priority FROM Demo ORDER BY DemoID LIMIT $1 OFFSET $2`
(still carrying the key, projected by `DemoRow.strip` at use sites). -/
def offsetRows (t : List DemoRow) (limit offset : Int) : List DemoRow :=
  ((orderByDemoID t).drop offset.toNat).take limit.toNat

/-- The `pagination` object of the `/offset` response. -/
structure OffsetPagination where
  totalRecords : Nat
  limit : Int
  offset : Int
  nextPage : Int
  deriving Repr, DecidableEq

/-- The `/offset` response body. -/
structure OffsetResponse where
  entries : List FormattedEntry
  pagination : OffsetPagination
  deriving Repr, DecidableEq

/-- The `GET /offset` handler.  The two `pool.query` calls are awaited with
no try/catch, so a rejected query is rethrown out of the handler: the
`.error` side of the result is the uncaught database error. -/
def offsetHandler (db : Except DbError (List DemoRow)) (limitQ offsetQ : Option Int) :
    Except DbError OffsetResponse :=
  match db with
  | .error e => .error e
  | .ok t =>
    let limit := parseLimit limitQ
    let offset := parseOffset offsetQ
    let rows := offsetRows t limit offset
    .ok { entries := rows.map (fun r => format (strip r)),
          pagination := { totalRecords := t.length, limit := limit, offset := offset,
                          nextPage := limit + offset } }

/-- Rows of `SELECT name, message, priority, DemoID FROM Demo WHERE DemoID > $2 ORDER BY DemoID LIMIT $1`. -/
def cursorRows (t : List DemoRow) (limit cursor : Int) : List DemoRow :=
  ((orderByDemoID t).filter (fun r => cursor < (r.demoid : Int))).take limit.toNat

/-- JavaScript `array.reduce((max, id) => (id > max ? id : max))` with no
initial value: throws on an empty array (`none`), otherwise folds from the
first element. -/
def reduceMax (l : List Nat) : Option Nat :=
  match l with
  | [] => none
  | x :: xs => some (xs.foldl (fun mx i => if mx < i then i else mx) x)

/-- The `pagination` object of the `/cursor` response. -/
structure CursorPagination where
  totalRecords : Nat
  limit : Int
  cursor : Nat
  deriving Repr, DecidableEq

/-- The `/cursor` response body. -/
structure CursorResponse where
  entries : List FormattedEntry
  pagination : CursorPagination
  deriving Repr, DecidableEq

/-- What the `GET /cursor` handler can throw: a rejected query (no
try/catch around `pool.query`), or the TypeError of `reduce` on an empty
row array while building `pagination.cursor`. -/
inductive CursorFailure where
  | db (e : DbError)
  | emptyReduce
  deriving Repr, DecidableEq

/-- The `GET /cursor` handler. -/
def cursorHandler (db : Except DbError (List DemoRow)) (limitQ cursorQ : Option Int) :
    Except CursorFailure CursorResponse :=
  match db with
  | .error e => .error (.db e)
  | .ok t =>
    let limit := parseLimit limitQ
    let cursor := parseCursor cursorQ
    let rows := cursorRows t limit cursor
    match reduceMax (rows.map (fun r => r.demoid)) with
    | none => .error .emptyReduce
    | some mx =>
      .ok { entries := rows.map (fun r => format (strip r)),
            pagination := { totalRecords := t.length, limit := limit, cursor := mx } }

end Closed

namespace Open

/-- A JavaScript row object as the `open/message.ts` code sees it: every
column the file ever reads, each possibly absent.  Values are kept as the
strings they interpolate to in a template literal. -/
structure Row where
  name : Option String := none
  message : Option String := none
  priority : Option String := none
  title : Option String := none
  authors : Option String := none
  isbn13 : Option String := none
  publication_year : Option String := none
  rating_avg : Option String := none
  deriving Repr, DecidableEq

/-- Template-literal interpolation of a possibly-absent field:
JavaScript renders `undefined` as the string "undefined". -/
def js (v : Option String) : String :=
  match v with
  | some s => s
  | none => "undefined"

/-- The (active) `format` of `open/message.ts` — the book template.  The
message template of the same file is commented out in the source. -/
def format (r : Row) : String :=
  "\x7b" ++ js r.title ++ "\x7d by [" ++ js r.authors ++ "] - ISBN: [" ++ js r.isbn13 ++
    "], published in [" ++ js r.publication_year ++ "], average rating: [" ++
    js r.rating_avg ++ "]"

/-- A `Demo` row as the driver hands it to `open/message.ts`: only the
message columns are present. -/
def rowOfDemo (r : DemoRow) : Row :=
  { name := some r.name, message := some r.message, priority := some (toString r.priority) }

/-- A `BOOKS` row as the driver hands it to `open/message.ts`: the five
selected book columns are present. -/
def rowOfBook (b : Book) : Row :=
  { isbn13 := some b.isbn13, authors := some b.authors,
    publication_year := some (toString b.publication_year),
    title := some b.title, rating_avg := some (toString b.rating_avg) }

/-- Modelled from the spec: `validationFunctions.isStringProvided` lives in
`core/utilities`, which is not under `src/`.  Per spec §4.1 it is the
"string-provided (non-empty, correct type)" check: a present, non-empty
string passes. -/
def isStringProvided (v : Option String) : Bool :=
  match v with
  | some s => !s.isEmpty
  | none => false

/-- Modelled from the spec: `validationFunctions.isNumberProvided` on a
string value, from `core/utilities` (not under `src/`).  Per spec §4.1 the
numeric check "parses as integer"; we model it as a present, non-empty,
all-digit string. -/
def isNumberProvidedStr (s : String) : Bool :=
  s.length != 0 && s.toList.all Char.isDigit

/-- `isNumberProvided` applied to a possibly-absent query/param string. -/
def isNumberProvidedOpt (v : Option String) : Bool :=
  match v with
  | some s => isNumberProvidedStr s
  | none => false

/-- Outcome of one validation middleware: call `next()` or terminate the
chain with an error response. -/
inductive Validation where
  | pass
  | reject (status : Nat) (message : String)
  deriving Repr, DecidableEq

/-- An HTTP response body as the `open/message.ts` handlers send it:
`entry`/`entries` on success (a formatted string, a row object, a list of
formatted strings, or a list of row objects) or `message` on failure. -/
inductive Resp where
  | entry (status : Nat) (entry : String)
  | entryObj (status : Nat) (entry : Row)
  | entries (status : Nat) (entries : List String)
  | entriesObj (status : Nat) (entries : List Row)
  | err (status : Nat) (message : String)
  deriving Repr, DecidableEq

/-- A numeric body/query field such as `priority`: `some n` when the raw
value is provided and `isNumberProvided` holds with `parseInt` value `n`
(modelled from the spec, see `isNumberProvidedStr`), `none` otherwise. -/
abbrev NumField := Option Int

/-- `mwValidPriorityQuery`: pass iff the `priority` query field is a
provided number with `parseInt` value between 1 and 3. -/
def mwValidPriorityQuery (priority : NumField) : Validation :=
  match priority with
  | some n =>
    if 1 ≤ n ∧ n ≤ 3 then .pass
    else .reject 400 "Invalid or missing Priority - please refer to documentation"
  | none => .reject 400 "Invalid or missing Priority - please refer to documentation"

/-- The inline second middleware of `POST /` (lines 84–99): same check as
`mwValidPriorityQuery` but over `request.body.priority`. -/
def mwValidPriorityBody (priority : NumField) : Validation :=
  match priority with
  | some n =>
    if 1 ≤ n ∧ n ≤ 3 then .pass
    else .reject 400 "Invalid or missing Priority - please refer to documentation"
  | none => .reject 400 "Invalid or missing Priority - please refer to documentation"

/-- Specification-side predicate: the numeric field is a provided numeric
integer between 1 and 3 (the condition both priority middlewares test). -/
def validPriority (p : Option Int) : Bool :=
  match p with
  | some n => decide (1 ≤ n ∧ n ≤ 3)
  | none => false

/-- The body of a message POST/PUT request. -/
structure MsgBody where
  name : Option String := none
  message : Option String := none
  priority : NumField := none
  deriving Repr, DecidableEq

/-- `mwValidNameMessageBody`: pass iff both `name` and `message` are
provided non-empty strings. -/
def mwValidNameMessageBody (b : MsgBody) : Validation :=
  if isStringProvided b.name && isStringProvided b.message then .pass
  else .reject 400 "Missing required information - please refer to documentation"

/-- Where the `POST /` middleware chain ends up: an early 400 response, or
the `INSERT` of the final handler with the raw body values. -/
inductive PostStep where
  | rejected (status : Nat) (message : String)
  | dbInsert (name message : Option String) (priority : NumField)
  deriving Repr, DecidableEq

/-- The `POST /` validation chain, in declaration order:
`mwValidNameMessageBody`, then the priority middleware, then the query. -/
def postValidation (b : MsgBody) : PostStep :=
  match mwValidNameMessageBody b with
  | .reject s m => .rejected s m
  | .pass =>
    match mwValidPriorityBody b.priority with
    | .reject s m => .rejected s m
    | .pass => .dbInsert b.name b.message b.priority

/-- Modelled from the spec: the next auto-generated surrogate key.  Per the
glossary it is "an auto-generated monotonically increasing identifier",
starting at 1. -/
def nextId (t : List DemoRow) : Nat :=
  (t.map (fun r => r.demoid)).foldl max 0 + 1

/-- Modelled from the spec: the database collaborator operation
`INSERT INTO DEMO(Name, Message, Priority) VALUES ($1,$2,$3) RETURNING *`.
The database enforces uniqueness of `name` (spec §3) and a violation
fails with a provider error whose detail string ends in "already exists."
(spec §6: unique-constraint violations are detected "by substring match,
e.g. ending in \"exists.\""). -/
def insertDemo (t : List DemoRow) (name message : String) (priority : Nat) :
    Except DbError (DemoRow × List DemoRow) :=
  if t.any (fun r => r.name = name) then
    .error { detail := some ("Key (name)=(" ++ name ++ ") already exists.") }
  else
    let row : DemoRow :=
      { demoid := nextId t, name := name, message := message, priority := priority }
    .ok (row, t ++ [row])

/-- JavaScript `String.prototype.endsWith`, on the character list. -/
def jsEndsWith (s post : String) : Bool :=
  List.isSuffixOf post.toList s.toList

/-- The `.catch` clause of `POST /` (lines 119–136): detail ending in
"already exists." means 400 "Name exists", anything else 500. -/
def postCatch (e : DbError) : Resp :=
  match e.detail with
  | some d => if jsEndsWith d "already exists." then .err 400 "Name exists"
              else .err 500 "server error - contact support"
  | none => .err 500 "server error - contact support"

/-- The whole `POST /` route: validation chain, insert, then 201 with the
formatted created row, or the `.catch` translation of the failure.
Returns the response together with the table after the request. -/
def postHandler (t : List DemoRow) (b : MsgBody) : Resp × List DemoRow :=
  match postValidation b with
  | .rejected s m => (.err s m, t)
  | .dbInsert n m p =>
    match insertDemo t (n.getD "") (m.getD "") (p.getD 0).toNat with
    | .ok (row, t2) => (.entry 201 (format (rowOfDemo row)), t2)
    | .error e => (postCatch e, t)

/-- `UPDATE Demo SET message = $1 WHERE name = $2 RETURNING *`: the table
after the statement, and the returned (updated) matching rows. -/
def updateDemo (t : List DemoRow) (message name : String) :
    List DemoRow × List DemoRow :=
  let t2 := t.map (fun r => if r.name = name then { r with message := message } else r)
  (t2, t2.filter (fun r => r.name = name))

/-- The `PUT /` route (lines 753–782): `mwValidNameMessageBody`, then the
update; `rowCount == 1` means 200 with the formatted updated row, anything
else 404 "Name not found". -/
def putHandler (t : List DemoRow) (b : MsgBody) : Resp × List DemoRow :=
  match mwValidNameMessageBody b with
  | .reject s m => (.err s m, t)
  | .pass =>
    let res := updateDemo t (b.message.getD "") (b.name.getD "")
    match res.2 with
    | [r] => (.entry 200 ("Updated: " ++ format (rowOfDemo r)), res.1)
    | _ => (.err 404 "Name not found", res.1)

/-- `DELETE FROM Demo WHERE name = $1 RETURNING *`: remaining table and
deleted rows. -/
def deleteDemoByName (t : List DemoRow) (name : String) :
    List DemoRow × List DemoRow :=
  (t.filter (fun r => ¬ r.name = name), t.filter (fun r => r.name = name))

/-- The `DELETE /:name` route (lines 845–869): `rowCount == 1` means 200
with the "Deleted: " formatted row, anything else 404 "Name not found". -/
def deleteByNameHandler (t : List DemoRow) (name : String) : Resp × List DemoRow :=
  let res := deleteDemoByName t name
  match res.2 with
  | [r] => (.entry 200 ("Deleted: " ++ format (rowOfDemo r)), res.1)
  | _ => (.err 404 "Name not found", res.1)

/-- The `DELETE /` route (lines 800–828): `mwValidPriorityQuery`, then
`DELETE FROM Demo WHERE priority = $1 RETURNING *`; `rowCount > 0` means
200 with every deleted row formatted, else 404. -/
def deleteByPriorityHandler (t : List DemoRow) (priority : NumField) :
    Resp × List DemoRow :=
  match mwValidPriorityQuery priority with
  | .reject s m => (.err s m, t)
  | .pass =>
    let p := priority.getD 0
    let removed := t.filter (fun r => (r.priority : Int) = p)
    let t2 := t.filter (fun r => ¬ (r.priority : Int) = p)
    if removed.length > 0 then
      (.entries 200 (removed.map (fun r => format (rowOfDemo r))), t2)
    else
      (.err 404 ("No Priority " ++ toString p ++ " messages found"), t2)

/-- `myValidIsbn13Param` (lines 310–325): `isNumberProvided` and length
exactly 13. -/
def myValidIsbn13Param (isbn : String) : Validation :=
  if isNumberProvidedStr isbn && isbn.length == 13 then .pass
  else .reject 400 "Invalid or missing isbn13 - please refer to documentation"

/-- The `GET /isbn13/:isbn13` route (lines 348–378): validate the param,
select by `isbn13`, 200 with the single row or 404. -/
def isbn13Handler (books : List Book) (isbn : String) : Resp :=
  match myValidIsbn13Param isbn with
  | .reject s m => .err s m
  | .pass =>
    match books.filter (fun b => b.isbn13 = isbn) with
    | [b] => .entryObj 200 (rowOfBook b)
    | _ => .err 404 "No book associated with this isbn13 was found"

/-- The query string of a `GET /` request on the message router: the three
book filters as raw strings, and `priority` as a numeric field (see
`NumField`). -/
structure RootQuery where
  authors : Option String := none
  publication_year : Option String := none
  rating_avg : Option String := none
  priority : NumField := none
  deriving Repr, DecidableEq

/-- JavaScript truthiness of a query-string value: present and non-empty. -/
def truthy (v : Option String) : Bool :=
  match v with
  | some s => !s.isEmpty
  | none => false

/-- `myValidAuthorQuery` (lines 169–183). -/
def myValidAuthorQuery (authors : Option String) : Validation :=
  if isStringProvided authors then .pass
  else .reject 400 "Invalid or missing author - please refer to documentation"

/-- Substring search over character lists, for the SQL LIKE percent-wrapped match. -/
def hasSub : List Char → List Char → Bool
  | [], needle => needle.isEmpty
  | c :: rest, needle => List.isPrefixOf needle (c :: rest) || hasSub rest needle

/-- SQL LIKE: `hay` contains `needle` as a substring. -/
def likeContains (hay needle : String) : Bool :=
  hasSub hay.toList needle.toList

/-- First `GET /` handler (lines 202–236): when `authors` is truthy and
`rating_avg` and `publication_year` are not, answer the author filter;
otherwise `next()` (`none`). -/
def authorsHandler (books : List Book) (q : RootQuery) : Option Resp :=
  if truthy q.authors && !truthy q.rating_avg && !truthy q.publication_year then
    some (match myValidAuthorQuery q.authors with
      | .reject s m => .err s m
      | .pass =>
        let rows := books.filter (fun b => likeContains b.authors (q.authors.getD ""))
        if rows.length > 0 then .entries 200 (rows.map (fun b => format (rowOfBook b)))
        else .err 404 "No book associated with this author was found")
  else none

/-- `myValidPublicationYearQuery` (lines 238–255): numeric and of length 4. -/
def myValidPublicationYearQuery (y : Option String) : Validation :=
  if isNumberProvidedOpt y && (y.getD "").length == 4 then .pass
  else .reject 400 "Invalid or missing publication_year - please refer to documentation"

/-- Second `GET /` handler (lines 274–308): when `publication_year` is
truthy and `rating_avg` and `authors` are not, answer the year filter;
otherwise `next()`. -/
def yearHandler (books : List Book) (q : RootQuery) : Option Resp :=
  if truthy q.publication_year && !truthy q.rating_avg && !truthy q.authors then
    some (match myValidPublicationYearQuery q.publication_year with
      | .reject s m => .err s m
      | .pass =>
        let rows := books.filter (fun b => toString b.publication_year = q.publication_year.getD "")
        if rows.length > 0 then .entries 200 (rows.map (fun b => format (rowOfBook b)))
        else .err 404 "No book associated with this publication year was found")
  else none

/-- `mwValidRatingAverageQuery` (lines 451–465). -/
def mwValidRatingAverageQuery (r : Option String) : Validation :=
  if isNumberProvidedOpt r then .pass
  else .reject 400 "Invalid or missing rating_avg - please refer to documentation"

/-- Third `GET /` registration (lines 484–513): the rating_avg route.  Its
middleware either rejects with 400 or the handler answers — neither path
falls through, so the route always responds. -/
def ratingRoute (books : List Book) (q : RootQuery) : Option Resp :=
  some (match mwValidRatingAverageQuery q.rating_avg with
    | .reject s m => .err s m
    | .pass =>
      let rows := books.filter (fun b => toString b.rating_avg = q.rating_avg.getD "")
      if rows.length > 0 then .entries 200 (rows.map (fun b => format (rowOfBook b)))
      else .err 404 "No book associated with this rating_avg was found")

/-- Fourth `GET /` registration (lines 659–688): retrieve messages by
priority, guarded by `mwValidPriorityQuery`.  Like `ratingRoute` it always
responds when reached. -/
def priorityRoute (demo : List DemoRow) (q : RootQuery) : Option Resp :=
  some (match mwValidPriorityQuery q.priority with
    | .reject s m => .err s m
    | .pass =>
      let p := q.priority.getD 0
      let rows := demo.filter (fun r => (r.priority : Int) = p)
      if rows.length > 0 then .entriesObj 200 (rows.map rowOfDemo)
      else .err 404 ("No Priority " ++ toString p ++ " messages found"))

/-- Express dispatch over a middleware stack: run handlers in registration
order until one responds instead of calling `next()`. -/
def dispatch (hs : List (RootQuery → Option Resp)) (q : RootQuery) : Option Resp :=
  match hs with
  | [] => none
  | h :: rest =>
    match h q with
    | some r => some r
    | none => dispatch rest q

/-- The four `GET /` registrations of `open/message.ts`, in file order. -/
def rootGetChain (books : List Book) (demo : List DemoRow) :
    List (RootQuery → Option Resp) :=
  [authorsHandler books, yearHandler books, ratingRoute books, priorityRoute demo]

/-- A `GET /` request against the message router. -/
def rootGet (books : List Book) (demo : List DemoRow) (q : RootQuery) : Option Resp :=
  dispatch (rootGetChain books demo) q

/-- `myValidTitleParam` (lines 379–396): not numeric, and a provided
non-empty string. -/
def myValidTitleParam (title : String) : Validation :=
  if !(isNumberProvidedStr title) && isStringProvided (some title) then .pass
  else .reject 400 "Invalid or missing title - please refer to documentation"

/-- The `GET /title/:title` route (lines 420–449): validate, select by
`title`, 200 with the single row or 404. -/
def titleHandler (books : List Book) (title : String) : Resp :=
  match myValidTitleParam title with
  | .reject s m => .err s m
  | .pass =>
    match books.filter (fun b => b.title = title) with
    | [b] => .entryObj 200 (rowOfBook b)
    | _ => .err 404 "No book associated with this title was found"

/-- The `GET /retrieve` route (lines 529–553): every book formatted, or 404
when the table is empty. -/
def retrieveHandler (books : List Book) : Resp :=
  if books.length > 0 then .entries 200 (books.map (fun b => format (rowOfBook b)))
  else .err 404 "No books found"

/-- The `GET /all` route (lines 624–641): every `Demo` row formatted,
unconditionally. -/
def allHandler (demo : List DemoRow) : Resp :=
  .entries 200 (demo.map (fun r => format (rowOfDemo r)))

/-- The `GET /name/:name` route (lines 709–733): the single matching row as
an object, or 404. -/
def nameGetHandler (demo : List DemoRow) (name : String) : Resp :=
  match demo.filter (fun r => r.name = name) with
  | [r] => .entryObj 200 (rowOfDemo r)
  | _ => .err 404 "Name not found"

/-- The `.catch` clause shared by every remaining route of
`open/message.ts` (the author/year/rating/title/isbn13/retrieve/all/name
GETs, `PUT /`, both DELETEs) and by `DELETE /:name` of
`closed_message.ts`: log the error and respond 500. -/
def serverErrorCatch (_e : DbError) : Resp :=
  .err 500 "server error - contact support"

/-- `POST /` with a possibly-failing database: `dbe = some e` means the
query call rejects with `e` (connection failure etc.), which the `.catch`
clause translates; `dbe = none` means the database answers and the route
behaves as `postHandler` (whose unique-key violation is modelled inside
`insertDemo`). -/
def postRoute (t : List DemoRow) (dbe : Option DbError) (b : MsgBody) :
    Resp × List DemoRow :=
  match postValidation b with
  | .rejected s m => (.err s m, t)
  | .dbInsert _ _ _ =>
    match dbe with
    | some e => (postCatch e, t)
    | none => postHandler t b

/-- `PUT /` with a possibly-failing database: a rejected update query is
caught and answered with the shared 500; on a healthy database the route is
`putHandler` (whose validation, already passed here, passes again). -/
def putRoute (t : List DemoRow) (dbe : Option DbError) (b : MsgBody) :
    Resp × List DemoRow :=
  match mwValidNameMessageBody b with
  | .reject s m => (.err s m, t)
  | .pass =>
    match dbe with
    | some e => (serverErrorCatch e, t)
    | none => putHandler t b

/-- `DELETE /:name` with a possibly-failing database. -/
def deleteByNameRoute (t : List DemoRow) (dbe : Option DbError) (name : String) :
    Resp × List DemoRow :=
  match dbe with
  | some e => (serverErrorCatch e, t)
  | none => deleteByNameHandler t name

/-- `DELETE /` by priority with a possibly-failing database. -/
def deleteByPriorityRoute (t : List DemoRow) (dbe : Option DbError) (p : NumField) :
    Resp × List DemoRow :=
  match mwValidPriorityQuery p with
  | .reject s m => (.err s m, t)
  | .pass =>
    match dbe with
    | some e => (serverErrorCatch e, t)
    | none => deleteByPriorityHandler t p

/-- `GET /isbn13/:isbn13` with a possibly-failing database. -/
def isbn13Route (books : List Book) (dbe : Option DbError) (isbn : String) : Resp :=
  match myValidIsbn13Param isbn with
  | .reject s m => .err s m
  | .pass =>
    match dbe with
    | some e => serverErrorCatch e
    | none => isbn13Handler books isbn

/-- `GET /title/:title` with a possibly-failing database. -/
def titleRoute (books : List Book) (dbe : Option DbError) (title : String) : Resp :=
  match myValidTitleParam title with
  | .reject s m => .err s m
  | .pass =>
    match dbe with
    | some e => serverErrorCatch e
    | none => titleHandler books title

/-- `GET /retrieve` with a possibly-failing database. -/
def retrieveRoute (books : List Book) (dbe : Option DbError) : Resp :=
  match dbe with
  | some e => serverErrorCatch e
  | none => retrieveHandler books

/-- `GET /all` with a possibly-failing database. -/
def allRoute (demo : List DemoRow) (dbe : Option DbError) : Resp :=
  match dbe with
  | some e => serverErrorCatch e
  | none => allHandler demo

/-- `GET /name/:name` with a possibly-failing database. -/
def nameGetRoute (demo : List DemoRow) (dbe : Option DbError) (name : String) : Resp :=
  match dbe with
  | some e => serverErrorCatch e
  | none => nameGetHandler demo name

/-- The authors filter of `GET /` with a possibly-failing database
(lines 202–236, with the query rejection path of lines 224–231). -/
def authorsFilterDb (books : List Book) (dbe : Option DbError) (q : RootQuery) :
    Option Resp :=
  if truthy q.authors && !truthy q.rating_avg && !truthy q.publication_year then
    some (match myValidAuthorQuery q.authors with
      | .reject s m => .err s m
      | .pass =>
        match dbe with
        | some e => serverErrorCatch e
        | none =>
          let rows := books.filter (fun b => likeContains b.authors (q.authors.getD ""))
          if rows.length > 0 then .entries 200 (rows.map (fun b => format (rowOfBook b)))
          else .err 404 "No book associated with this author was found")
  else none

/-- The publication-year filter of `GET /` with a possibly-failing database
(lines 274–308, with the query rejection path of lines 296–303). -/
def yearFilterDb (books : List Book) (dbe : Option DbError) (q : RootQuery) :
    Option Resp :=
  if truthy q.publication_year && !truthy q.rating_avg && !truthy q.authors then
    some (match myValidPublicationYearQuery q.publication_year with
      | .reject s m => .err s m
      | .pass =>
        match dbe with
        | some e => serverErrorCatch e
        | none =>
          let rows := books.filter
            (fun b => toString b.publication_year = q.publication_year.getD "")
          if rows.length > 0 then .entries 200 (rows.map (fun b => format (rowOfBook b)))
          else .err 404 "No book associated with this publication year was found")
  else none

/-- The rating_avg route of `GET /` with a possibly-failing database
(lines 484–513, with the query rejection path of lines 504–511). -/
def ratingRouteDb (books : List Book) (dbe : Option DbError) (q : RootQuery) :
    Option Resp :=
  some (match mwValidRatingAverageQuery q.rating_avg with
    | .reject s m => .err s m
    | .pass =>
      match dbe with
      | some e => serverErrorCatch e
      | none =>
        let rows := books.filter (fun b => toString b.rating_avg = q.rating_avg.getD "")
        if rows.length > 0 then .entries 200 (rows.map (fun b => format (rowOfBook b)))
        else .err 404 "No book associated with this rating_avg was found")

/-- The priority route of `GET /` with a possibly-failing database
(lines 659–688, with the query rejection path of lines 679–686). -/
def priorityRouteDb (demo : List DemoRow) (dbe : Option DbError) (q : RootQuery) :
    Option Resp :=
  some (match mwValidPriorityQuery q.priority with
    | .reject s m => .err s m
    | .pass =>
      match dbe with
      | some e => serverErrorCatch e
      | none =>
        let p := q.priority.getD 0
        let rows := demo.filter (fun r => (r.priority : Int) = p)
        if rows.length > 0 then .entriesObj 200 (rows.map rowOfDemo)
        else .err 404 ("No Priority " ++ toString p ++ " messages found"))

end Open

namespace Closed

/-- The catch clause of the closed `POST /` route (`closed_message.ts`
lines 155–168): a truthy `detail` ending in "exists." means 400
"Name exists", anything else 500. -/
def postCatch (e : DbError) : Open.Resp :=
  match e.detail with
  | some d =>
    if d.length != 0 && Open.jsEndsWith d "exists." then .err 400 "Name exists"
    else .err 500 "server error - contact support"
  | none => .err 500 "server error - contact support"

end Closed

/-! ### Helper lemmas -/

namespace Closed

theorem perm_orderByDemoID (t : List DemoRow) : (orderByDemoID t).Perm t :=
  List.perm_insertionSort _ t

theorem sorted_orderByDemoID (t : List DemoRow) :
    List.Pairwise (fun a b => a.demoid ≤ b.demoid) (orderByDemoID t) := by
  haveI : IsTotal DemoRow (fun a b => a.demoid ≤ b.demoid) :=
    ⟨fun a b => Nat.le_total a.demoid b.demoid⟩
  haveI : IsTrans DemoRow (fun a b => a.demoid ≤ b.demoid) :=
    ⟨fun _ _ _ h h' => Nat.le_trans h h'⟩
  exact List.sorted_insertionSort _ t

theorem reduceFun_eq_max :
    (fun mx i : Nat => if mx < i then i else mx) = max := by
  funext a b
  rcases Nat.lt_or_ge a b with h | h
  · simp [h, Nat.max_eq_right h.le]
  · simp [Nat.not_lt.2 h, Nat.max_eq_left h]

theorem foldl_max_mem (xs : List Nat) (a : Nat) :
    xs.foldl max a = a ∨ xs.foldl max a ∈ xs := by
  induction xs generalizing a with
  | nil => exact Or.inl rfl
  | cons y ys ih =>
    rw [List.foldl_cons]
    rcases ih (max a y) with h | h
    · rw [h]
      rcases Nat.le_total a y with hy | hy
      · exact Or.inr (by simp [Nat.max_eq_right hy])
      · exact Or.inl (Nat.max_eq_left hy)
    · exact Or.inr (List.mem_cons_of_mem _ h)

theorem le_foldl_max (xs : List Nat) (a : Nat) :
    a ≤ xs.foldl max a ∧ ∀ x ∈ xs, x ≤ xs.foldl max a := by
  induction xs generalizing a with
  | nil => exact ⟨Nat.le_refl _, by simp⟩
  | cons y ys ih =>
    obtain ⟨h1, h2⟩ := ih (max a y)
    rw [List.foldl_cons]
    refine ⟨Nat.le_trans (Nat.le_max_left a y) h1, ?_⟩
    intro x hx
    rcases List.mem_cons.1 hx with rfl | hx
    · exact Nat.le_trans (Nat.le_max_right a x) h1
    · exact h2 x hx

theorem reduceMax_spec {l : List Nat} {m : Nat} (h : reduceMax l = some m) :
    m ∈ l ∧ ∀ x ∈ l, x ≤ m := by
  cases l with
  | nil => simp [reduceMax] at h
  | cons x xs =>
    rw [reduceMax, reduceFun_eq_max] at h
    obtain rfl : xs.foldl max x = m := by injection h
    constructor
    · rcases foldl_max_mem xs x with h' | h'
      · rw [h']; exact List.mem_cons_self x xs
      · exact List.mem_cons_of_mem _ h'
    · intro y hy
      obtain ⟨h1, h2⟩ := le_foldl_max xs x
      rcases List.mem_cons.1 hy with rfl | hy
      · exact h1
      · exact h2 y hy

theorem reduceMax_eq_none {l : List Nat} (h : reduceMax l = none) : l = [] := by
  cases l with
  | nil => rfl
  | cons x xs => simp [reduceMax] at h

theorem parseLimit_pos (q : Option Int) : 0 < parseLimit q := by
  unfold parseLimit
  cases q with
  | none => decide
  | some n =>
    dsimp only
    split
    · assumption
    · decide

theorem parseOffset_nonneg (q : Option Int) : 0 ≤ parseOffset q := by
  unfold parseOffset
  cases q with
  | none => decide
  | some n =>
    dsimp only
    split
    · assumption
    · decide

theorem cursorRows_sublist (t : List DemoRow) (l c : Int) :
    (cursorRows t l c).Sublist (orderByDemoID t) :=
  (List.take_sublist _ _).trans (List.filter_sublist _)

theorem mem_cursorRows {t : List DemoRow} {l c : Int} {r : DemoRow}
    (h : r ∈ cursorRows t l c) : c < (r.demoid : Int) := by
  unfold cursorRows at h
  have h2 := List.mem_of_mem_take h
  rw [List.mem_filter] at h2
  exact of_decide_eq_true h2.2

/-! ### Claim theorems for the pagination routes -/

/-- C1: for every `GET /cursor` request (with `limit` defaulting to 10 and
`cursor` to 0 when absent or invalid), the selected page contains only rows
with surrogate key strictly greater than the cursor, in ascending
surrogate-key order, with at most `limit` entries; and whenever the page is
non-empty the handler responds with those rows stripped of the surrogate
key (and formatted) and with `pagination.cursor` equal to the maximum
surrogate key among the returned rows. -/
theorem cursor_pagination_spec (t : List DemoRow) (limitQ cursorQ : Option Int) :
    (∀ r ∈ cursorRows t (parseLimit limitQ) (parseCursor cursorQ),
        parseCursor cursorQ < (r.demoid : Int)) ∧
    List.Pairwise (fun a b => a.demoid ≤ b.demoid)
        (cursorRows t (parseLimit limitQ) (parseCursor cursorQ)) ∧
    (cursorRows t (parseLimit limitQ) (parseCursor cursorQ)).length ≤
        (parseLimit limitQ).toNat ∧
    (cursorRows t (parseLimit limitQ) (parseCursor cursorQ) ≠ [] →
      ∃ mx,
        cursorHandler (.ok t) limitQ cursorQ =
          .ok { entries := (cursorRows t (parseLimit limitQ) (parseCursor cursorQ)).map
                  (fun r => format (strip r)),
                pagination := { totalRecords := t.length, limit := parseLimit limitQ,
                                cursor := mx } } ∧
        mx ∈ (cursorRows t (parseLimit limitQ) (parseCursor cursorQ)).map
              (fun r => r.demoid) ∧
        ∀ d ∈ (cursorRows t (parseLimit limitQ) (parseCursor cursorQ)).map
              (fun r => r.demoid), d ≤ mx) := by
  refine ⟨fun r hr => mem_cursorRows hr, ?_, ?_, ?_⟩
  · exact List.Pairwise.sublist (cursorRows_sublist t _ _) (sorted_orderByDemoID t)
  · unfold cursorRows
    rw [List.length_take]
    exact Nat.min_le_left _ _
  · intro hne
    cases h : reduceMax ((cursorRows t (parseLimit limitQ) (parseCursor cursorQ)).map
        (fun r => r.demoid)) with
    | none =>
      have := reduceMax_eq_none h
      rw [List.map_eq_nil_iff] at this
      exact absurd this hne
    | some mx =>
      refine ⟨mx, ?_, (reduceMax_spec h).1, (reduceMax_spec h).2⟩
      unfold cursorHandler
      dsimp only
      rw [h]

/-- Witness for C1 on a one-row table with default query parameters. -/
theorem cursor_pagination_spec_witness :
    cursorHandler (.ok [⟨1, "a", "ma", 2⟩]) none none =
      .ok { entries := [⟨"a", "ma", 2, "\x7b2\x7d - [a] says: ma"⟩],
            pagination := { totalRecords := 1, limit := 10, cursor := 1 } } := by
  obtain ⟨mx, h1, h2, -⟩ :=
    (cursor_pagination_spec [⟨1, "a", "ma", 2⟩] none none).2.2.2 (by decide)
  have hmx : mx = 1 := by
    have : (cursorRows [⟨1, "a", "ma", 2⟩] (parseLimit none) (parseCursor none)).map
        (fun r => r.demoid) = [1] := by decide
    rw [this] at h2
    simpa using h2
  subst hmx
  rw [h1]
  exact congrArg Except.ok (by decide)

/-- C2: when the cursor is at or past every surrogate key (the page query
returns zero rows), the `GET /cursor` handler throws instead of producing a
`pagination.cursor`: the `reduce` over the empty row list has no initial
element. -/
theorem cursor_empty_page_throws (t : List DemoRow) (limitQ cursorQ : Option Int)
    (h : ∀ r ∈ t, (r.demoid : Int) ≤ parseCursor cursorQ) :
    cursorHandler (.ok t) limitQ cursorQ = .error .emptyReduce := by
  have hrows : cursorRows t (parseLimit limitQ) (parseCursor cursorQ) = [] := by
    unfold cursorRows
    have hf : (orderByDemoID t).filter
        (fun r => parseCursor cursorQ < (r.demoid : Int)) = [] := by
      rw [List.filter_eq_nil_iff]
      intro r hr
      have hrt : r ∈ t := (perm_orderByDemoID t).subset hr
      simpa using Int.not_lt.2 (h r hrt)
    rw [hf]
    simp
  unfold cursorHandler
  dsimp only
  rw [hrows]
  rfl

/-- Witness for C2: a cursor past the only surrogate key. -/
theorem cursor_empty_page_throws_witness :
    cursorHandler (.ok [⟨1, "a", "ma", 2⟩]) none (some 5) = .error .emptyReduce :=
  cursor_empty_page_throws [⟨1, "a", "ma", 2⟩] none (some 5) (by decide)

/-- C3: for every `GET /offset` request (with `limit` defaulting to 10 and
`offset` to 0 when absent or invalid), the handler responds with at most
`limit` rows obtained by skipping exactly `offset` rows of the collection in
ascending surrogate-key order, and the pagination object is `totalRecords`
(the full count), `limit`, `offset`, and `nextPage = limit + offset`
(not capped by `totalRecords`). -/
theorem offset_pagination_spec (t : List DemoRow) (limitQ offsetQ : Option Int) :
    (orderByDemoID t).Perm t ∧
    List.Pairwise (fun a b => a.demoid ≤ b.demoid) (orderByDemoID t) ∧
    offsetRows t (parseLimit limitQ) (parseOffset offsetQ) =
      ((orderByDemoID t).drop (parseOffset offsetQ).toNat).take
        (parseLimit limitQ).toNat ∧
    offsetHandler (.ok t) limitQ offsetQ =
      .ok { entries := (offsetRows t (parseLimit limitQ) (parseOffset offsetQ)).map
              (fun r => format (strip r)),
            pagination := { totalRecords := t.length, limit := parseLimit limitQ,
                            offset := parseOffset offsetQ,
                            nextPage := parseLimit limitQ + parseOffset offsetQ } } ∧
    (offsetRows t (parseLimit limitQ) (parseOffset offsetQ)).length ≤
      (parseLimit limitQ).toNat ∧
    0 < parseLimit limitQ ∧ 0 ≤ parseOffset offsetQ := by
  refine ⟨perm_orderByDemoID t, sorted_orderByDemoID t, rfl, rfl, ?_,
    parseLimit_pos limitQ, parseOffset_nonneg offsetQ⟩
  unfold offsetRows
  rw [List.length_take]
  exact Nat.min_le_left _ _

end Closed

/-! ### Claim theorems for the database-error policy -/

/-- C5 counterexample: the claim that "a rejected database query is never
left to propagate out of the handler" is false for `GET /offset` and
`GET /cursor` — neither wraps its `await pool.query` in a try/catch, so at
this concrete input the outcome of the handler is the rethrown database error
itself (`.error`), not a translated HTTP response. -/
theorem uncaught_pagination_db_error_cex :
    Closed.offsetHandler (.error ⟨none⟩) none none = .error ⟨none⟩ ∧
    Closed.cursorHandler (.error ⟨none⟩) none none = .error (.db ⟨none⟩) :=
  ⟨rfl, rfl⟩

/-- C5 amended: database failures are caught at the query call and
translated into a 400 or 500 response in every message and book route
handler — the two POST catch clauses answer 400 "Name exists" or 500, and
every other route (PUT, both DELETEs, and all book/message GETs) answers
the shared 500 whenever its query rejects, with the table untouched; only
`GET /offset` and `GET /cursor` issue awaited queries with no try/catch,
so there a rejected query propagates out of the handler uncaught.  The
final block checks that on a healthy database each db-threading route
definition coincides with the plain handler it extends. -/
theorem db_error_policy_amended :
    ∀ (e : DbError) (limitQ offsetQ : Option Int) (t demo : List DemoRow)
      (books : List Book) (b : Open.MsgBody) (p : Open.NumField)
      (q : Open.RootQuery) (isbn title name : String),
      Closed.offsetHandler (.error e) limitQ offsetQ = .error e ∧
      Closed.cursorHandler (.error e) limitQ offsetQ = .error (.db e) ∧
      Open.serverErrorCatch e = .err 500 "server error - contact support" ∧
      (Open.postCatch e = .err 400 "Name exists" ∨
        Open.postCatch e = .err 500 "server error - contact support") ∧
      (Closed.postCatch e = .err 400 "Name exists" ∨
        Closed.postCatch e = .err 500 "server error - contact support") ∧
      (Open.postValidation b = .dbInsert b.name b.message b.priority →
        Open.postRoute t (some e) b = (Open.postCatch e, t)) ∧
      (Open.mwValidNameMessageBody b = .pass →
        Open.putRoute t (some e) b = (Open.serverErrorCatch e, t)) ∧
      Open.deleteByNameRoute t (some e) name = (Open.serverErrorCatch e, t) ∧
      (Open.mwValidPriorityQuery p = .pass →
        Open.deleteByPriorityRoute t (some e) p = (Open.serverErrorCatch e, t)) ∧
      (Open.myValidIsbn13Param isbn = .pass →
        Open.isbn13Route books (some e) isbn = Open.serverErrorCatch e) ∧
      (Open.myValidTitleParam title = .pass →
        Open.titleRoute books (some e) title = Open.serverErrorCatch e) ∧
      Open.retrieveRoute books (some e) = Open.serverErrorCatch e ∧
      Open.allRoute demo (some e) = Open.serverErrorCatch e ∧
      Open.nameGetRoute demo (some e) name = Open.serverErrorCatch e ∧
      ((Open.truthy q.authors && !Open.truthy q.rating_avg &&
          !Open.truthy q.publication_year) = true →
        Open.authorsFilterDb books (some e) q = some (Open.serverErrorCatch e)) ∧
      ((Open.truthy q.publication_year && !Open.truthy q.rating_avg &&
          !Open.truthy q.authors) = true →
        Open.myValidPublicationYearQuery q.publication_year = .pass →
        Open.yearFilterDb books (some e) q = some (Open.serverErrorCatch e)) ∧
      (Open.mwValidRatingAverageQuery q.rating_avg = .pass →
        Open.ratingRouteDb books (some e) q = some (Open.serverErrorCatch e)) ∧
      (Open.mwValidPriorityQuery q.priority = .pass →
        Open.priorityRouteDb demo (some e) q = some (Open.serverErrorCatch e)) ∧
      Open.postRoute t none b = Open.postHandler t b ∧
      Open.putRoute t none b = Open.putHandler t b ∧
      Open.deleteByNameRoute t none name = Open.deleteByNameHandler t name ∧
      Open.deleteByPriorityRoute t none p = Open.deleteByPriorityHandler t p ∧
      Open.isbn13Route books none isbn = Open.isbn13Handler books isbn ∧
      Open.titleRoute books none title = Open.titleHandler books title ∧
      Open.retrieveRoute books none = Open.retrieveHandler books ∧
      Open.allRoute demo none = Open.allHandler demo ∧
      Open.nameGetRoute demo none name = Open.nameGetHandler demo name ∧
      Open.authorsFilterDb books none q = Open.authorsHandler books q ∧
      Open.yearFilterDb books none q = Open.yearHandler books q ∧
      Open.ratingRouteDb books none q = Open.ratingRoute books q ∧
      Open.priorityRouteDb demo none q = Open.priorityRoute demo q := by
  intro e limitQ offsetQ t demo books b p q isbn title name
  refine ⟨rfl, rfl, rfl, ?_, ?_, ?_, ?_, rfl, ?_, ?_, ?_, rfl, rfl, rfl, ?_, ?_, ?_,
    ?_, ?_, ?_, rfl, ?_, ?_, ?_, rfl, rfl, rfl, ?_, ?_, ?_, ?_⟩
  · obtain ⟨d⟩ := e
    cases d with
    | none => exact Or.inr rfl
    | some s =>
      simp only [Open.postCatch]
      split
      · exact Or.inl rfl
      · exact Or.inr rfl
  · obtain ⟨d⟩ := e
    cases d with
    | none => exact Or.inr rfl
    | some s =>
      simp only [Closed.postCatch]
      split
      · exact Or.inl rfl
      · exact Or.inr rfl
  · intro h
    unfold Open.postRoute
    rw [h]
  · intro h
    unfold Open.putRoute
    rw [h]
  · intro h
    unfold Open.deleteByPriorityRoute
    rw [h]
  · intro h
    unfold Open.isbn13Route
    rw [h]
  · intro h
    unfold Open.titleRoute
    rw [h]
  · intro hg
    have ha : Open.truthy q.authors = true := by
      simp only [Bool.and_eq_true] at hg
      exact hg.1.1
    have hv : Open.myValidAuthorQuery q.authors = .pass := by
      unfold Open.myValidAuthorQuery
      rw [if_pos ?_]
      cases hq : q.authors with
      | none => rw [hq] at ha; exact absurd ha (by unfold Open.truthy; decide)
      | some s =>
        rw [hq] at ha
        unfold Open.truthy at ha
        unfold Open.isStringProvided
        exact ha
    unfold Open.authorsFilterDb
    rw [if_pos hg, hv]
  · intro hg hv
    unfold Open.yearFilterDb
    rw [if_pos hg, hv]
  · intro hv
    unfold Open.ratingRouteDb
    rw [hv]
  · intro hv
    unfold Open.priorityRouteDb
    rw [hv]
  · cases h : Open.postValidation b with
    | rejected s m =>
      unfold Open.postRoute Open.postHandler
      rw [h]
    | dbInsert n m pr =>
      unfold Open.postRoute
      rw [h]
  · cases h : Open.mwValidNameMessageBody b with
    | reject s m =>
      unfold Open.putRoute Open.putHandler
      rw [h]
    | pass =>
      unfold Open.putRoute
      rw [h]
  · cases h : Open.mwValidPriorityQuery p with
    | reject s m =>
      unfold Open.deleteByPriorityRoute Open.deleteByPriorityHandler
      rw [h]
    | pass =>
      unfold Open.deleteByPriorityRoute
      rw [h]
  · cases h : Open.myValidIsbn13Param isbn with
    | reject s m =>
      unfold Open.isbn13Route Open.isbn13Handler
      rw [h]
    | pass =>
      unfold Open.isbn13Route
      rw [h]
  · cases h : Open.myValidTitleParam title with
    | reject s m =>
      unfold Open.titleRoute Open.titleHandler
      rw [h]
    | pass =>
      unfold Open.titleRoute
      rw [h]
  · unfold Open.authorsFilterDb Open.authorsHandler
    by_cases hg : (Open.truthy q.authors && !Open.truthy q.rating_avg &&
        !Open.truthy q.publication_year) = true
    · simp only [if_pos hg]
    · simp only [if_neg hg]
  · unfold Open.yearFilterDb Open.yearHandler
    by_cases hg : (Open.truthy q.publication_year && !Open.truthy q.rating_avg &&
        !Open.truthy q.authors) = true
    · simp only [if_pos hg]
    · simp only [if_neg hg]
  · unfold Open.ratingRouteDb Open.ratingRoute
    cases Open.mwValidRatingAverageQuery q.rating_avg <;> rfl
  · unfold Open.priorityRouteDb Open.priorityRoute
    cases Open.mwValidPriorityQuery q.priority <;> rfl

/-- Witness for C5 amended: a concrete connection failure is translated to
the shared 500 by the PUT, delete-by-priority and isbn13 routes, with the
table untouched. -/
theorem db_error_policy_amended_witness :
    Open.putRoute [⟨1, "alice", "hi", 2⟩] (some ⟨none⟩)
        { name := some "alice", message := some "new" } =
      (Open.serverErrorCatch ⟨none⟩, [⟨1, "alice", "hi", 2⟩]) ∧
    Open.deleteByPriorityRoute [⟨1, "alice", "hi", 2⟩] (some ⟨none⟩) (some 2) =
      (Open.serverErrorCatch ⟨none⟩, [⟨1, "alice", "hi", 2⟩]) ∧
    Open.isbn13Route [] (some ⟨none⟩) "9780000000001" =
      Open.serverErrorCatch ⟨none⟩ := by
  have h := db_error_policy_amended ⟨none⟩ none none [⟨1, "alice", "hi", 2⟩] []
    [] { name := some "alice", message := some "new" } (some 2) { }
    "9780000000001" "x" "alice"
  exact ⟨h.2.2.2.2.2.2.1 (by decide),
    h.2.2.2.2.2.2.2.2.1 (by decide),
    h.2.2.2.2.2.2.2.2.2.1 (by decide)⟩

namespace Open

/-! ### Claim theorems for the validation chains -/

/-- C4: the checks of the create chain run in declaration order and the
first failing check alone determines the 400 message — when the
name/message check fails, its message is returned no matter what the
priority is; when it passes and the priority is not a numeric integer in
[1,3], the priority message is returned and the chain never reaches the
insert (`.dbInsert`); only when both pass is the database reached.
Likewise the delete-by-priority route rejects an invalid priority with 400
and an untouched table. -/
theorem validation_chain_order :
    ∀ (b : MsgBody) (t : List DemoRow) (p : NumField),
      (mwValidNameMessageBody b ≠ .pass →
        postValidation b =
          .rejected 400 "Missing required information - please refer to documentation") ∧
      (mwValidNameMessageBody b = .pass → validPriority b.priority = false →
        postValidation b =
          .rejected 400 "Invalid or missing Priority - please refer to documentation") ∧
      (mwValidNameMessageBody b = .pass → validPriority b.priority = true →
        postValidation b = .dbInsert b.name b.message b.priority) ∧
      (validPriority p = false →
        deleteByPriorityHandler t p =
          (.err 400 "Invalid or missing Priority - please refer to documentation", t)) := by
  intro b t p
  refine ⟨?_, ?_, ?_, ?_⟩
  · intro hne
    unfold postValidation
    unfold mwValidNameMessageBody at hne ⊢
    by_cases hc : (isStringProvided b.name && isStringProvided b.message) = true
    · rw [if_pos hc] at hne
      exact absurd rfl hne
    · rw [if_neg hc]
  · intro hp hv
    unfold postValidation
    rw [hp]
    cases hpri : b.priority with
    | none => rfl
    | some n =>
      rw [hpri] at hv
      unfold validPriority at hv
      dsimp only at hv
      have hnv : ¬ (1 ≤ n ∧ n ≤ 3) := of_decide_eq_false hv
      unfold mwValidPriorityBody
      dsimp only
      rw [if_neg hnv]
  · intro hp hv
    unfold postValidation
    rw [hp]
    cases hpri : b.priority with
    | none =>
      rw [hpri] at hv
      exact absurd hv (by unfold validPriority; decide)
    | some n =>
      rw [hpri] at hv
      unfold validPriority at hv
      dsimp only at hv
      have hyes : 1 ≤ n ∧ n ≤ 3 := of_decide_eq_true hv
      unfold mwValidPriorityBody
      dsimp only
      rw [if_pos hyes]
  · intro hv
    unfold deleteByPriorityHandler
    cases hp2 : p with
    | none => rfl
    | some n =>
      rw [hp2] at hv
      unfold validPriority at hv
      dsimp only at hv
      have hnv : ¬ (1 ≤ n ∧ n ≤ 3) := of_decide_eq_false hv
      unfold mwValidPriorityQuery
      dsimp only
      rw [if_neg hnv]

/-- Witness for C4: a body missing its message (and with an out-of-range
priority) is rejected with the message of the first check, and a delete with
priority 9 is rejected before the table is touched. -/
theorem validation_chain_order_witness :
    postValidation { name := some "a", message := none, priority := some 9 } =
      .rejected 400 "Missing required information - please refer to documentation" ∧
    deleteByPriorityHandler [⟨1, "a", "m", 2⟩] (some 9) =
      (.err 400 "Invalid or missing Priority - please refer to documentation",
        [⟨1, "a", "m", 2⟩]) :=
  ⟨(validation_chain_order { name := some "a", message := none, priority := some 9 }
      [] none).1 (by decide),
    (validation_chain_order { } [⟨1, "a", "m", 2⟩] (some 9)).2.2.2 (by decide)⟩

/-! ### Claim theorems for the message mutation endpoints -/

/-- C6: evaluation of `POST /` at its failing input.  Creating a fresh
message with valid fields does respond 201, and a duplicate name does
respond 400 "Name exists" — but the 201 entry is the created row pushed
through the book template (every placeholder renders `undefined`), not the
"\x7bpriority\x7d - [name] says: message" string that the claim and the apidoc
of the route itself state. -/
theorem post_message_book_format_bug :
    (postHandler [] { name := some "alice", message := some "hi", priority := some 2 }).1 =
      .entry 201
        "\x7bundefined\x7d by [undefined] - ISBN: [undefined], published in [undefined], average rating: [undefined]" ∧
    (postHandler [] { name := some "alice", message := some "hi", priority := some 2 }).2 =
      [⟨1, "alice", "hi", 2⟩] ∧
    (postHandler [⟨1, "alice", "hi", 2⟩]
        { name := some "alice", message := some "x", priority := some 2 }).1 =
      .err 400 "Name exists" := by
  refine ⟨?_, ?_, ?_⟩ <;> decide

/-- C7: evaluation of the delete routes at their failing input.  A
non-matching name does respond 404, delete-by-priority does delete and
return all matching rows and 404 on zero matches — but the deleted entries
are rendered with the book template (every placeholder `undefined`),
not the "Deleted: \x7bpriority\x7d - [name] says: message" string the claim and
the apidoc of the route itself state. -/
theorem delete_message_book_format_bug :
    deleteByNameHandler [⟨1, "alice", "hi", 2⟩] "alice" =
      (.entry 200
        "Deleted: \x7bundefined\x7d by [undefined] - ISBN: [undefined], published in [undefined], average rating: [undefined]",
        []) ∧
    deleteByNameHandler [⟨1, "alice", "hi", 2⟩] "bob" =
      (.err 404 "Name not found", [⟨1, "alice", "hi", 2⟩]) ∧
    deleteByPriorityHandler [⟨1, "a", "x", 2⟩, ⟨2, "b", "y", 2⟩, ⟨3, "c", "z", 1⟩]
        (some 2) =
      (.entries 200
        ["\x7bundefined\x7d by [undefined] - ISBN: [undefined], published in [undefined], average rating: [undefined]",
         "\x7bundefined\x7d by [undefined] - ISBN: [undefined], published in [undefined], average rating: [undefined]"],
        [⟨3, "c", "z", 1⟩]) ∧
    deleteByPriorityHandler [⟨3, "c", "z", 1⟩] (some 2) =
      (.err 404 "No Priority 2 messages found", [⟨3, "c", "z", 1⟩]) := by
  refine ⟨?_, ?_, ?_, ?_⟩ <;> decide

/-- C8: evaluation of `PUT /` at its failing input.  The update is keyed on
the name and replaces only the message field (name and priority of the
stored row are unchanged), and a missing name yields 404 with the table
unchanged — but the 200 response renders the updated record through the
book template, so it carries no data of the record, instead of the
"Updated: ..." entry of the claim and of the apidoc of the route itself. -/
theorem put_message_book_format_bug :
    putHandler [⟨1, "alice", "hi", 2⟩] { name := some "alice", message := some "new" } =
      (.entry 200
        "Updated: \x7bundefined\x7d by [undefined] - ISBN: [undefined], published in [undefined], average rating: [undefined]",
        [⟨1, "alice", "new", 2⟩]) ∧
    putHandler [⟨1, "alice", "hi", 2⟩] { name := some "bob", message := some "x" } =
      (.err 404 "Name not found", [⟨1, "alice", "hi", 2⟩]) := by
  refine ⟨?_, ?_⟩ <;> decide

/-! ### Claim theorems for the book lookup route -/

theorem book_filter_eq_singleton :
    ∀ (l : List Book), (l.map (fun b => b.isbn13)).Nodup → ∀ (s : String) (b : Book),
      b ∈ l → b.isbn13 = s → l.filter (fun x => x.isbn13 = s) = [b] := by
  intro l
  induction l with
  | nil =>
    intro _ s b hb
    exact absurd hb (List.not_mem_nil b)
  | cons a l' ih =>
    intro hnd s b hb hbs
    rw [List.map_cons, List.nodup_cons] at hnd
    obtain ⟨ha, hnd'⟩ := hnd
    rcases List.mem_cons.1 hb with rfl | hb'
    · have hnil : l'.filter (fun x => x.isbn13 = s) = [] := by
        rw [List.filter_eq_nil_iff]
        intro x hx hfx
        have hxs : x.isbn13 = s := of_decide_eq_true hfx
        exact ha (by rw [hbs, ← hxs]; exact List.mem_map_of_mem _ hx)
      rw [List.filter_cons, if_pos (by simpa using hbs), hnil]
    · have hfa : ¬ a.isbn13 = s := by
        intro h
        exact ha (by rw [h, ← hbs]; exact List.mem_map_of_mem _ hb')
      rw [List.filter_cons, if_neg (by simpa using hfa)]
      exact ih hnd' s b hb' hbs

/-- C9: fetching a book by `isbn13`.  A parameter that is not a 13-digit
numeric string is rejected with 400; a valid 13-digit parameter matching no
stored book (keys unique) yields 404 with the claimed message; an existing
`isbn13` yields 200 with the full selected record as the entry. -/
theorem isbn13_route_spec :
    ∀ (books : List Book) (s : String),
      (¬ (s.length = 13 ∧ s.toList.all Char.isDigit = true) →
        isbn13Handler books s =
          .err 400 "Invalid or missing isbn13 - please refer to documentation") ∧
      (s.length = 13 → s.toList.all Char.isDigit = true →
        (books.map (fun b => b.isbn13)).Nodup →
        ((∀ b ∈ books, b.isbn13 ≠ s) →
          isbn13Handler books s =
            .err 404 "No book associated with this isbn13 was found") ∧
        (∀ b ∈ books, b.isbn13 = s →
          isbn13Handler books s = .entryObj 200 (rowOfBook b))) := by
  intro books s
  constructor
  · intro hbad
    unfold isbn13Handler myValidIsbn13Param
    have hcond : (isNumberProvidedStr s && s.length == 13) = false := by
      unfold isNumberProvidedStr
      cases hd : s.toList.all Char.isDigit with
      | false => simp [hd]
      | true =>
        by_cases hl : s.length = 13
        · exact absurd ⟨hl, hd⟩ hbad
        · simp [hl]
    rw [hcond]
    rfl
  · intro hl hd hnd
    have hcond : (isNumberProvidedStr s && s.length == 13) = true := by
      unfold isNumberProvidedStr
      rw [hl, hd]
      rfl
    constructor
    · intro hnone
      unfold isbn13Handler myValidIsbn13Param
      rw [hcond]
      have hnil : books.filter (fun x => x.isbn13 = s) = [] := by
        rw [List.filter_eq_nil_iff]
        intro x hx hfx
        exact hnone x hx (of_decide_eq_true hfx)
      rw [hnil]
      rfl
    · intro b hb hbs
      unfold isbn13Handler myValidIsbn13Param
      rw [hcond]
      rw [book_filter_eq_singleton books hnd s b hb hbs]
      rfl

/-- Witness for C9: a one-book catalog, hit and validation-failure cases. -/
theorem isbn13_route_spec_witness :
    isbn13Handler [⟨"9780000000001", "Au", 1999, "Ti", 4⟩] "9780000000001" =
      .entryObj 200 (rowOfBook ⟨"9780000000001", "Au", 1999, "Ti", 4⟩) ∧
    isbn13Handler [] "123" =
      .err 400 "Invalid or missing isbn13 - please refer to documentation" :=
  ⟨((isbn13_route_spec [⟨"9780000000001", "Au", 1999, "Ti", 4⟩] "9780000000001").2
      (by decide) (by decide) (by decide)).2
      ⟨"9780000000001", "Au", 1999, "Ti", 4⟩ (by decide) rfl,
    (isbn13_route_spec [] "123").1 (by decide)⟩

/-! ### Claim theorems for the root GET dispatch -/

/-- C10: the three book-filter handlers on `GET /` are mutually exclusive
by fallthrough — the authors handler answers exactly when `authors` is
truthy and the other two filters are not, the publication-year handler
exactly when `publication_year` is truthy and the other two are not, and
every other root GET falls through to the rating_avg route.  That route
always responds, so the priority route registered after it never runs
(dropping it from the chain does not change any response), and a request
without a numeric `rating_avg` (e.g. a priority query) gets the 400
rating_avg message instead. -/
theorem root_get_dispatch_spec :
    ∀ (books : List Book) (demo : List DemoRow) (q : RootQuery),
      rootGet books demo q =
        dispatch [authorsHandler books, yearHandler books, ratingRoute books] q ∧
      (rootGet books demo q).isSome = true ∧
      ((authorsHandler books q).isSome = true ↔
        (truthy q.authors = true ∧ truthy q.rating_avg = false ∧
          truthy q.publication_year = false)) ∧
      ((yearHandler books q).isSome = true ↔
        (truthy q.publication_year = true ∧ truthy q.rating_avg = false ∧
          truthy q.authors = false)) ∧
      ((authorsHandler books q = none ∧ yearHandler books q = none) →
        rootGet books demo q = ratingRoute books q) ∧
      ((authorsHandler books q = none ∧ yearHandler books q = none ∧
          isNumberProvidedOpt q.rating_avg = false) →
        rootGet books demo q =
          some (.err 400 "Invalid or missing rating_avg - please refer to documentation")) := by
  intro books demo q
  have hrr : ∀ qq : RootQuery, ∃ r, ratingRoute books qq = some r := fun qq => ⟨_, rfl⟩
  obtain ⟨rr, hr⟩ := hrr q
  have hmain : rootGet books demo q =
      dispatch [authorsHandler books, yearHandler books, ratingRoute books] q := by
    unfold rootGet rootGetChain
    cases ha : authorsHandler books q with
    | some r => simp [dispatch, ha]
    | none =>
      cases hy : yearHandler books q with
      | some r => simp [dispatch, ha, hy]
      | none => simp [dispatch, ha, hy, hr]
  refine ⟨hmain, ?_, ?_, ?_, ?_, ?_⟩
  · rw [hmain]
    cases ha : authorsHandler books q with
    | some r => simp [dispatch, ha]
    | none =>
      cases hy : yearHandler books q with
      | some r => simp [dispatch, ha, hy]
      | none => simp [dispatch, ha, hy, hr]
  · unfold authorsHandler
    by_cases hg : (truthy q.authors && !truthy q.rating_avg &&
        !truthy q.publication_year) = true
    · rw [if_pos hg]
      simp only [Option.isSome_some, true_iff]
      simp only [Bool.and_eq_true, Bool.not_eq_true'] at hg
      exact ⟨hg.1.1, hg.1.2, hg.2⟩
    · rw [if_neg hg]
      simp only [Option.isSome_none, Bool.false_eq_true, false_iff]
      intro ⟨h1, h2, h3⟩
      exact hg (by simp [h1, h2, h3])
  · unfold yearHandler
    by_cases hg : (truthy q.publication_year && !truthy q.rating_avg &&
        !truthy q.authors) = true
    · rw [if_pos hg]
      simp only [Option.isSome_some, true_iff]
      simp only [Bool.and_eq_true, Bool.not_eq_true'] at hg
      exact ⟨hg.1.1, hg.1.2, hg.2⟩
    · rw [if_neg hg]
      simp only [Option.isSome_none, Bool.false_eq_true, false_iff]
      intro ⟨h1, h2, h3⟩
      exact hg (by simp [h1, h2, h3])
  · intro ⟨ha, hy⟩
    rw [hmain]
    simp [dispatch, ha, hy, hr]
  · intro ⟨ha, hy, hratings⟩
    rw [hmain]
    have : ratingRoute books q =
        some (.err 400 "Invalid or missing rating_avg - please refer to documentation") := by
      unfold ratingRoute mwValidRatingAverageQuery
      rw [if_neg (by simp [hratings])]
    simp [dispatch, ha, hy, this]

/-- Witness for C10: a pure priority query on the root path is answered by
the 400 of the rating_avg validator, not by the priority route. -/
theorem root_get_dispatch_spec_witness :
    rootGet [] [⟨1, "a", "m", 2⟩] { priority := some 2 } =
      some (.err 400 "Invalid or missing rating_avg - please refer to documentation") :=
  (root_get_dispatch_spec [] [⟨1, "a", "m", 2⟩] { priority := some 2 }).2.2.2.2.2
    ⟨rfl, rfl, rfl⟩

end Open

end Bookstore
